import Mathlib

/-!
Shallow embedding of the pivot-table composition pipeline of the excelize
repository slice (`pivotTable.go`), together with theorems about the claims
of its specification.

Conventions of the embedding:
* Go machine integers are modelled as `Int` (no arithmetic here comes near
  overflow), Go strings as `String`, Go slices as `List`.
* Fallible Go functions returning `error` are modelled with `Except XErr`
  (or a product with `Option XErr` where the caller inspects partial state).
* Go string-library helpers (`strings.Split`, `strings.ReplaceAll`,
  `strings.EqualFold`, `strings.Contains`, `strings.TrimPrefix`) are
  re-implemented structurally over `List Char` so that every definition
  reduces inside the kernel.
* Struct fields keep their Go names; Go zero values become field defaults.
-/

set_option autoImplicit false

namespace Excelize

/-- Error values surfaced by the pivot-table pipeline.  `parameterRequired`
models `ErrParameterRequired`, `parameterInvalid` models
`ErrParameterInvalid`, `parsingError p e` models the
`fmt.Errorf("parameter '%s' parsing error: %s", ...)` wrappers and
`sheetNotExist s` models the sheet-existence failures. -/
inductive XErr where
  | parameterRequired
  | parameterInvalid
  | parsingError (param : String) (inner : XErr)
  | sheetNotExist (sheet : String)
  deriving DecidableEq

/-- `strings.Split` of Go, specialised to a one-character separator, acting
on the character list of the string.  `strings.Split(s, sep)` with a
non-empty separator returns the (possibly empty) fragments between
occurrences of the separator; on the empty string it returns `[""]`. -/
def splitOnChar (c : Char) : List Char → List (List Char)
  | [] => [[]]
  | a :: t =>
    if a = c then [] :: splitOnChar c t
    else
      match splitOnChar c t with
      | h :: r => (a :: h) :: r
      | [] => [[a]]

/-- `strings.Split(rangeStr, "!")` as used by `adjustRange`. -/
def goSplitBang (s : String) : List String :=
  (splitOnChar '!' s.toList).map fun cs => ⟨cs⟩

/-- `strings.ReplaceAll(s, "$", "")` — removing every dollar sign. -/
def stripDollar (s : String) : String :=
  ⟨s.toList.filter fun c => c ≠ '$'⟩

/-- Modelled from the spec: `CellNameToCoordinates` is not part of the
source slice (`pivotTable.go` only calls it through
`areaRefToCoordinates`).  Per the spec (§4.1) a cell coordinate is a
column-letter run followed by a row-number run; the column is bijective
base 26 over `A`–`Z` and the row is 1-based decimal.  Anything else is
unparsable. -/
def cellNameToCoordinates (cell : String) : Option (Int × Int) :=
  let cs := cell.toList
  let letters := cs.takeWhile fun c => c.isUpper
  let digits := cs.dropWhile fun c => c.isUpper
  if letters.isEmpty ∨ digits.isEmpty ∨ ¬ digits.all Char.isDigit then none
  else
    let col : Int := letters.foldl (fun acc c => acc * 26 + ((c.toNat : Int) - 64)) 0
    let row : Int := digits.foldl (fun acc c => acc * 10 + ((c.toNat : Int) - 48)) 0
    if row < 1 then none else some (col, row)

/-- Modelled from the spec: `areaRefToCoordinates` is code of this
repository that is not under the source slice.  Per the spec (§4.1) it
parses the (already `$`-stripped) address portion into two cell
coordinates and fails with `InvalidParameter` when the address portion
cannot be parsed into two cell coordinates.  On success it returns the
four coordinates `[x1, y1, x2, y2]` of the two corners in written order. -/
def areaRefToCoordinates (ref : String) : Except XErr (List Int) :=
  match (splitOnChar ':' ref.toList).map (fun cs => (⟨cs⟩ : String)) with
  | [c1, c2] =>
    match cellNameToCoordinates c1, cellNameToCoordinates c2 with
    | some (x1, y1), some (x2, y2) => .ok [x1, y1, x2, y2]
    | _, _ => .error .parameterInvalid
  | _ => .error .parameterInvalid

/-- The coordinate part of `adjustRange` (`pivotTable.go` lines 212–225):
rejects a degenerate single-cell box, then corrects reversed corners by
swapping the two column coordinates and the two row coordinates
independently. -/
def adjustCoordinates : List Int → Except XErr (List Int)
  | [x1, y1, x2, y2] =>
    if x1 = x2 ∧ y1 = y2 then .error .parameterInvalid
    else
      let px := if x2 < x1 then (x2, x1) else (x1, x2)
      let py := if y2 < y1 then (y2, y1) else (y1, y2)
      .ok [px.1, py.1, px.2, py.2]
  | _ => .error .parameterInvalid

/-- The part of `adjustRange` following the emptiness check: split on the
sheet separator, require exactly two segments, strip dollar signs from the
address segment, parse it, and normalize the coordinates.  On success the
sheet segment is returned together with the normalized box. -/
def adjustRangeSplit : List String → Except XErr (String × List Int)
  | [s0, s1] =>
    match areaRefToCoordinates (stripDollar s1) with
    | .error e => .error e
    | .ok coordinates => (adjustCoordinates coordinates).map fun c => (s0, c)
  | _ => .error .parameterInvalid

/-- `adjustRange` (`pivotTable.go` lines 199–226): range normalization.
An empty range string fails with `ErrParameterRequired`; a wrong number of
`!`-separated segments fails with `ErrParameterInvalid`; parse failures of
the address portion and degenerate single-cell ranges also fail; otherwise
the sheet name and the corrected box are returned. -/
def adjustRange (rangeStr : String) : Except XErr (String × List Int) :=
  if rangeStr.length < 1 then .error .parameterRequired
  else adjustRangeSplit (goSplitBang rangeStr)

/-- `PivotTableField` — the caller's per-field settings (Go struct of the
same name).  Defaults are the Go zero values. -/
structure PivotTableField where
  Compact : Bool := false
  Data : String := ""
  Name : String := ""
  Outline : Bool := false
  Subtotal : String := ""
  DefaultSubtotal : Bool := false
  deriving DecidableEq

/-- `PivotTableOption` — the full request (Go struct of the same name).
`pivotTableSheetName` is the unexported field the validation stage fills
in. -/
structure PivotTableOption where
  pivotTableSheetName : String := ""
  DataRange : String := ""
  PivotTableRange : String := ""
  Rows : List PivotTableField := []
  Columns : List PivotTableField := []
  Data : List PivotTableField := []
  Filter : List PivotTableField := []
  RowGrandTotals : Bool := false
  ColGrandTotals : Bool := false
  ShowDrill : Bool := false
  UseAutoFormatting : Bool := false
  PageOverThenDown : Bool := false
  MergeItem : Bool := false
  CompactData : Bool := false
  ShowError : Bool := false
  ShowRowHeaders : Bool := false
  ShowColHeaders : Bool := false
  ShowRowStripes : Bool := false
  ShowColStripes : Bool := false
  ShowLastColumn : Bool := false
  PivotTableStyleName : String := ""
  deriving DecidableEq

/-- Maximum display-name length.  The constant `MaxFieldLength` is not part
of the source slice; the doc comment of `PivotTableField` in the source
fixes it at 255 characters ("Maximum 255 characters are allowed in data
field name, excess characters will be truncated").  No claim depends on
its numeric value. -/
def MaxFieldLength : Nat := 255

/-- `inPivotTableFieldAux idx a x` — the loop of `inPivotTableField`
starting at index `idx`. -/
def inPivotTableFieldAux (idx : Int) (a : List PivotTableField) (x : String) : Int :=
  match a with
  | [] => -1
  | n :: rest => if x = n.Data then idx else inPivotTableFieldAux (idx + 1) rest x

/-- `inPivotTableField` (`pivotTable.go` lines 472–479): the index of the
first entry of `a` whose source-field name `Data` equals `x`, or `-1`. -/
def inPivotTableField (a : List PivotTableField) (x : String) : Int :=
  inPivotTableFieldAux 0 a x

/-- `getPivotTableFieldOptions` (`pivotTable.go` lines 687–695): the first
entry of `fields` whose `Data` equals `name`, paired with the `ok` flag;
the Go zero value with `ok = false` when there is none. -/
def getPivotTableFieldOptions (name : String) (fields : List PivotTableField) :
    PivotTableField × Bool :=
  match fields with
  | [] => ({}, false)
  | field :: rest =>
    if field.Data = name then (field, true) else getPivotTableFieldOptions name rest

/-- Display-name truncation of `getPivotTableFieldsName` for one field
(the Go code truncates byte-wise; character-wise truncation is equivalent
for the inputs exercised here and no claim depends on it). -/
def truncatedFieldName (fld : PivotTableField) : String :=
  if fld.Name.length > MaxFieldLength then ⟨fld.Name.toList.take MaxFieldLength⟩ else fld.Name

/-- `getPivotTableFieldsName` (`pivotTable.go` lines 663–673): the display
names of `fields` in order, each truncated to `MaxFieldLength`. -/
def getPivotTableFieldsName (fields : List PivotTableField) : List String :=
  fields.map truncatedFieldName

/-- `getPivotTableFieldName` (`pivotTable.go` lines 676–684): the
(truncated) display name of the first entry of `fields` whose `Data`
equals `name`, or `""` when there is none. -/
def getPivotTableFieldName (name : String) (fields : List PivotTableField) : String :=
  match fields with
  | [] => ""
  | fld :: rest =>
    if fld.Data = name then truncatedFieldName fld else getPivotTableFieldName name rest

/-- `strings.EqualFold` of Go, over the ASCII strings used by the subtotal
enumeration: case-insensitive equality via character-wise lowering. -/
def eqFold (a b : String) : Bool :=
  a.toList.map Char.toLower == b.toList.map Char.toLower

/-- The fixed aggregation-function enumeration of
`getPivotTableFieldsSubtotal`. -/
def subtotalEnums : List String :=
  ["average", "count", "countNums", "max", "min", "product", "stdDev",
   "stdDevp", "sum", "var", "varp"]

/-- The `inEnums` closure of `getPivotTableFieldsSubtotal`
(`pivotTable.go` lines 647–654): first enumeration member equal to `val`
up to case, defaulting to `"sum"`. -/
def inEnums (enums : List String) (val : String) : String :=
  match enums with
  | [] => "sum"
  | e :: rest => if eqFold e val then e else inEnums rest val

/-- `getPivotTableFieldsSubtotal` (`pivotTable.go` lines 644–659):
normalized aggregation tags of `fields`, in order. -/
def getPivotTableFieldsSubtotal (fields : List PivotTableField) : List String :=
  fields.map fun fld => inEnums subtotalEnums fld.Subtotal

/-- `xlsxString` — serialized string item. -/
structure xlsxString where
  V : String := ""
  deriving DecidableEq

/-- `xlsxSharedItems` of the cache definition: `S` models the `*xlsxString`
pointer (nil ↦ `none`). -/
structure xlsxSharedItems where
  Count : Nat := 0
  S : Option xlsxString := none
  deriving DecidableEq

/-- `xlsxCacheField` — one cache-schema entry. -/
structure xlsxCacheField where
  Name : String := ""
  SharedItems : xlsxSharedItems := {}
  deriving DecidableEq

/-- `xlsxCacheFields` — the cache-schema list with its count. -/
structure xlsxCacheFields where
  Count : Nat := 0
  CacheField : List xlsxCacheField := []
  deriving DecidableEq

/-- `xlsxWorksheetSource` — cache source reference (`Ref`/`Sheet` for a
literal box, `Name` for a defined-name reference). -/
structure xlsxWorksheetSource where
  Ref : String := ""
  Sheet : String := ""
  Name : String := ""
  deriving DecidableEq

/-- `xlsxCacheSource`; the Go field `Type` is rendered `SourceType`
(`Type` is a reserved word in Lean). -/
structure xlsxCacheSource where
  SourceType : String := ""
  WorksheetSource : xlsxWorksheetSource := {}
  deriving DecidableEq

/-- `xlsxPivotCacheDefinition` — the persisted pivot-cache definition
(fields that the builder sets). -/
structure xlsxPivotCacheDefinition where
  SaveData : Bool := false
  RefreshOnLoad : Bool := false
  CreatedVersion : Nat := 0
  RefreshedVersion : Nat := 0
  MinRefreshableVersion : Nat := 0
  CacheSource : xlsxCacheSource := {}
  CacheFields : xlsxCacheFields := {}
  deriving DecidableEq

/-- `xlsxItem` — a pivot-field item: `X` models the `*int` pointer, `T`
the sentinel tag. -/
structure xlsxItem where
  X : Option Int := none
  T : String := ""
  deriving DecidableEq

/-- `xlsxItems` — item list with count. -/
structure xlsxItems where
  Count : Nat := 0
  Item : List xlsxItem := []
  deriving DecidableEq

/-- `xlsxPivotField` — one entry of the table definition's field list.
The `*bool` pointers `Compact`, `Outline`, `DefaultSubtotal` and the
`*xlsxItems` pointer are modelled with `Option` (nil ↦ `none`); the Go
zero value is the record of all defaults. -/
structure xlsxPivotField where
  Name : String := ""
  Axis : String := ""
  DataField : Bool := false
  Compact : Option Bool := none
  Outline : Option Bool := none
  DefaultSubtotal : Option Bool := none
  Items : Option xlsxItems := none
  deriving DecidableEq

/-- `xlsxField` — an axis-list entry referencing a pivot field by
position (`-2` is the "Σ Values" sentinel). -/
structure xlsxField where
  X : Int := 0
  deriving DecidableEq

/-- `xlsxRowFields` — the row-axis list. -/
structure xlsxRowFields where
  Count : Nat := 0
  Field : List xlsxField := []
  deriving DecidableEq

/-- `xlsxColFields` — the column-axis list. -/
structure xlsxColFields where
  Count : Nat := 0
  Field : List xlsxField := []
  deriving DecidableEq

/-- `xlsxPageField` — one filter-axis (page) entry. -/
structure xlsxPageField where
  Name : String := ""
  Fld : Int := 0
  deriving DecidableEq

/-- `xlsxPageFields` — the filter-axis list. -/
structure xlsxPageFields where
  Count : Nat := 0
  PageField : List xlsxPageField := []
  deriving DecidableEq

/-- `xlsxDataField` — one data-axis entry. -/
structure xlsxDataField where
  Name : String := ""
  Fld : Int := 0
  Subtotal : String := ""
  deriving DecidableEq

/-- `xlsxDataFields` — the data-axis list. -/
structure xlsxDataFields where
  Count : Nat := 0
  DataField : List xlsxDataField := []
  deriving DecidableEq

/-- The loop body of `addPivotFields` (`pivotTable.go` lines 530–597) for
one header-row field name: axis classification with precedence Rows,
Filter, Columns, Data, and the per-axis `xlsxPivotField` it appends.  The
local `x` of the Go code stays `0` throughout, so a literal index item is
always `{X := some 0}`. -/
def buildPivotField (opts : PivotTableOption) (name : String) : xlsxPivotField :=
  if inPivotTableField opts.Rows name ≠ -1 then
    let rowPair := getPivotTableFieldOptions name opts.Rows
    let items :=
      if !rowPair.2 || !rowPair.1.DefaultSubtotal
      then [({ X := some 0 } : xlsxItem)] else [({ T := "default" } : xlsxItem)]
    { Name := getPivotTableFieldName name opts.Rows
      Axis := "axisRow"
      DataField := inPivotTableField opts.Data name != -1
      Compact := some rowPair.1.Compact
      Outline := some rowPair.1.Outline
      DefaultSubtotal := some rowPair.1.DefaultSubtotal
      Items := some { Count := items.length, Item := items } }
  else if inPivotTableField opts.Filter name ≠ -1 then
    { Axis := "axisPage"
      DataField := inPivotTableField opts.Data name != -1
      Name := getPivotTableFieldName name opts.Columns
      Items := some { Count := 1, Item := [({ T := "default" } : xlsxItem)] } }
  else if inPivotTableField opts.Columns name ≠ -1 then
    let colPair := getPivotTableFieldOptions name opts.Columns
    let items :=
      if !colPair.2 || !colPair.1.DefaultSubtotal
      then [({ X := some 0 } : xlsxItem)] else [({ T := "default" } : xlsxItem)]
    { Name := getPivotTableFieldName name opts.Columns
      Axis := "axisCol"
      DataField := inPivotTableField opts.Data name != -1
      Compact := some colPair.1.Compact
      Outline := some colPair.1.Outline
      DefaultSubtotal := some colPair.1.DefaultSubtotal
      Items := some { Count := items.length, Item := items } }
  else if inPivotTableField opts.Data name ≠ -1 then
    { DataField := true }
  else
    {}

/-- The loop body of `addPivotCache` (`pivotTable.go` lines 286–305) for
one header-row field name: the `xlsxCacheField` with its shared-items
marker. -/
def buildCacheField (opts : PivotTableOption) (name : String) : xlsxCacheField :=
  let rowPair := getPivotTableFieldOptions name opts.Rows
  let colPair := getPivotTableFieldOptions name opts.Columns
  let sharedItems : xlsxSharedItems :=
    if (rowPair.2 && !rowPair.1.DefaultSubtotal) || (colPair.2 && !colPair.1.DefaultSubtotal)
    then { Count := 1, S := some { V := "" } }
    else { Count := 0, S := none }
  { Name := name, SharedItems := sharedItems }

/-- The shared-items rule as the specification words it, for comparison
with `buildCacheField`: count 1 exactly when the field is classified —
with the classifier's precedence Rows, then Filter, then Columns, then
Data — under Rows or Columns and the winning axis's resolved per-field
option has `DefaultSubtotal` false; count 0 for every other field, in
particular for a field whose classification is won by Filter. -/
def specSharedItemsCount (opts : PivotTableOption) (name : String) : Nat :=
  if inPivotTableField opts.Rows name ≠ -1 then
    if (getPivotTableFieldOptions name opts.Rows).1.DefaultSubtotal = false then 1 else 0
  else if inPivotTableField opts.Filter name ≠ -1 then 0
  else if inPivotTableField opts.Columns name ≠ -1 then
    if (getPivotTableFieldOptions name opts.Columns).1.DefaultSubtotal = false then 1 else 0
  else 0

/-- `xlsxPivotFields` — the ordered pivot-field list with its count. -/
structure xlsxPivotFields where
  Count : Nat := 0
  PivotField : List xlsxPivotField := []
  deriving DecidableEq

/-- `xlsxLocation` — placement reference of the table definition. -/
structure xlsxLocation where
  Ref : String := ""
  FirstDataCol : Nat := 0
  FirstDataRow : Nat := 0
  FirstHeaderRow : Nat := 0
  deriving DecidableEq

/-- `xlsxX` — an empty placeholder sub-item of the row/column item
skeleton. -/
structure xlsxX where
  deriving DecidableEq

/-- `xlsxI` — one row/column item holding placeholder sub-items. -/
structure xlsxI where
  X : List xlsxX := []
  deriving DecidableEq

/-- `xlsxRowItems` — the static row-item skeleton. -/
structure xlsxRowItems where
  Count : Nat := 0
  I : List xlsxI := []
  deriving DecidableEq

/-- `xlsxColItems` — the static column-item skeleton. -/
structure xlsxColItems where
  Count : Nat := 0
  I : List xlsxI := []
  deriving DecidableEq

/-- `xlsxPivotTableStyleInfo` — style block of the table definition. -/
structure xlsxPivotTableStyleInfo where
  Name : String := ""
  ShowRowHeaders : Bool := false
  ShowColHeaders : Bool := false
  ShowRowStripes : Bool := false
  ShowColStripes : Bool := false
  ShowLastColumn : Bool := false
  deriving DecidableEq

/-- `xlsxPivotTableDefinition` — the persisted pivot-table definition
(fields that the builder sets; the nilable axis sections are `Option`). -/
structure xlsxPivotTableDefinition where
  Name : String := ""
  CacheID : Int := 0
  RowGrandTotals : Bool := false
  ColGrandTotals : Bool := false
  UpdatedVersion : Nat := 0
  MinRefreshableVersion : Nat := 0
  ShowDrill : Bool := false
  UseAutoFormatting : Bool := false
  PageOverThenDown : Bool := false
  MergeItem : Bool := false
  CreatedVersion : Nat := 0
  CompactData : Bool := false
  ShowError : Bool := false
  DataCaption : String := ""
  Location : xlsxLocation := {}
  PivotFields : xlsxPivotFields := {}
  RowItems : xlsxRowItems := {}
  ColItems : xlsxColItems := {}
  PivotTableStyleInfo : xlsxPivotTableStyleInfo := {}
  RowFields : Option xlsxRowFields := none
  ColFields : Option xlsxColFields := none
  PageFields : Option xlsxPageFields := none
  DataFields : Option xlsxDataFields := none
  deriving DecidableEq

/-- Contents persisted as package parts by this pipeline. -/
inductive PartContent where
  | cacheDef (pc : xlsxPivotCacheDefinition)
  | tableDef (pt : xlsxPivotTableDefinition)
  deriving DecidableEq

/-- A relationship record created through the relationship collaborator. -/
structure Rel where
  path : String
  typ : String
  target : String
  deriving DecidableEq

/-- The document state visible to the pipeline.  `pkg` is the name set of
the package-part registry (`File.Pkg`), `parts` the contents persisted by
this pipeline, `sheets` the sheet-name → worksheet-path table,
`cells` the cell-lookup collaborator (sheet, 1-based column, 1-based row ↦
value), `definedNameRefTo` the named-range resolver (name, scope sheet ↦
target range or `""`), `pivotCaches` the workbook pivot-cache registry
(cache ID, relationship ID), `rels` the relationship records and
`contentTypes` the content-type registrations. -/
structure File where
  pkg : List String := []
  parts : List (String × PartContent) := []
  sheets : List (String × String) := []
  cells : String → Int → Int → String := fun _ _ _ => ""
  definedNameRefTo : String → String → String := fun _ _ => ""
  pivotCaches : List (Int × String) := []
  rels : List Rel := []
  contentTypes : List (Nat × String) := []

/-- `hasSubAux s pat` — does `pat` occur as a contiguous run of `s`? -/
def hasSubAux : List Char → List Char → Bool
  | s@(_ :: t), pat => pat.isPrefixOf s || hasSubAux t pat
  | [], pat => pat.isEmpty

/-- `strings.Contains(s, pat)` of Go. -/
def hasSub (s pat : String) : Bool :=
  hasSubAux s.toList pat.toList

/-- `strings.TrimPrefix(s, pre)` of Go. -/
def goTrimPre (s pre : String) : String :=
  if pre.toList.isPrefixOf s.toList then ⟨s.toList.drop pre.toList.length⟩ else s

/-- `countPivotTables` (`pivotTable.go` lines 603–612): number of package
parts whose name contains `xl/pivotTables/pivotTable`, accumulated exactly
as the `Pkg.Range` loop does. -/
def countPivotTables (f : File) : Nat :=
  f.pkg.foldl (fun count k => if hasSub k "xl/pivotTables/pivotTable" then count + 1 else count) 0

/-- `countPivotCache` (`pivotTable.go` lines 616–625): number of package
parts whose name contains `xl/pivotCache/pivotCacheDefinition`. -/
def countPivotCache (f : File) : Nat :=
  f.pkg.foldl
    (fun count k => if hasSub k "xl/pivotCache/pivotCacheDefinition" then count + 1 else count) 0

/-- `addWorkbookPivotCache` (`pivotTable.go` lines 698–715): scans the
workbook pivot-cache registry with accumulator starting at 1, keeping any
larger existing cache ID, increments, appends the new registry entry with
relationship `rIdN`, and returns the new cache ID. -/
def addWorkbookPivotCache (f : File) (RID : Nat) : File × Int :=
  let cacheID := f.pivotCaches.foldl (fun acc pc => if pc.1 > acc then pc.1 else acc) 1
  let cacheID := cacheID + 1
  ({ f with pivotCaches := f.pivotCaches ++ [(cacheID, "rId" ++ toString RID)] }, cacheID)

/-- Modelled from the spec: the package persistence collaborator
(`saveFileList`, §6 "persist a named byte blob as a package part") —
registers the part name and stores the content, replacing a part of the
same name. -/
def saveFileList (f : File) (name : String) (content : PartContent) : File :=
  { f with
    pkg := if f.pkg.contains name then f.pkg else f.pkg ++ [name]
    parts := f.parts.filter (fun p => p.1 ≠ name) ++ [(name, content)] }

/-- Modelled from the spec: the relationship-ID collaborator (`addRels`,
§6 "allocate a relationship ID given a source path, relationship type,
and target, returning the new ID") — appends the record and returns an ID
fresh within the relationship file. -/
def addRels (f : File) (path typ target : String) : File × Nat :=
  let rID := (f.rels.filter fun r => r.path = path).length + 1
  ({ f with rels := f.rels ++ [{ path := path, typ := typ, target := target }] }, rID)

/-- Modelled from the spec: the content-type collaborator
(`addContentTypePart`, §6 "register a content-type part given a sequence
number and a type tag"). -/
def addContentTypePart (f : File) (idx : Nat) (contentType : String) : File :=
  { f with contentTypes := f.contentTypes ++ [(idx, contentType)] }

/-- Modelled from the spec: `workSheetReader` — sheet-existence check
(§6 "check sheet existence"); the worksheet object itself is unused by the
pipeline. -/
def workSheetReader (f : File) (sheet : String) : Except XErr Unit :=
  if (f.sheets.lookup sheet).isSome then .ok () else .error (.sheetNotExist sheet)

/-- Modelled from the spec: `getSheetXMLPath` — the storage path of a
sheet, `none` when the sheet does not exist. -/
def getSheetXMLPath (f : File) (sheet : String) : Option String :=
  f.sheets.lookup sheet

/-- The relationship type tag `SourceRelationshipPivotTable` (constant of
the host format, not in the source slice). -/
def SourceRelationshipPivotTable : String :=
  "http://schemas.openxmlformats.org/officeDocument/2006/relationships/pivotTable"

/-- The relationship type tag `SourceRelationshipPivotCache`. -/
def SourceRelationshipPivotCache : String :=
  "http://schemas.openxmlformats.org/officeDocument/2006/relationships/pivotCacheDefinition"

/-- Modelled from the spec: `getWorkbookRelsPath` — the workbook
relationship file path of a standard package. -/
def getWorkbookRelsPath (_f : File) : String :=
  "xl/_rels/workbook.xml.rels"

/-- The schema version constant `pivotTableVersion` (not in the source
slice; its numeric value is irrelevant to every claim). -/
def pivotTableVersion : Nat := 3

/-- Modelled from the spec: bijective base-26 digits of a 1-based column
number, most significant first. -/
def colNameAux (n : Nat) (acc : List Char) : List Char :=
  if h : n = 0 then acc
  else colNameAux ((n - 1) / 26) (Char.ofNat (65 + (n - 1) % 26) :: acc)
termination_by n
decreasing_by
  have hd : (n - 1) / 26 ≤ n - 1 := Nat.div_le_self _ _
  omega

/-- Modelled from the spec: the `CoordinatesToCellName` collaborator —
column letters followed by the decimal row number. -/
def coordinatesToCellName (col row : Int) : String :=
  (⟨colNameAux col.toNat []⟩ : String) ++ toString row

/-- `getPivotFieldsOrder` (`pivotTable.go` lines 230–249): resolve the
data range through the defined-name collaborator, normalize it, and read
the header-row cell of every column of the box, left to right.  The
cell-lookup collaborator is modelled total (its own failures are outside
the claims), so the only failure is the wrapped range-parsing error. -/
def getPivotFieldsOrder (f : File) (opts : PivotTableOption) : Except XErr (List String) :=
  let d := f.definedNameRefTo opts.DataRange opts.pivotTableSheetName
  let dataRange := if d = "" then opts.DataRange else d
  match adjustRange dataRange with
  | .error e => .error (.parsingError "DataRange" e)
  | .ok (dataSheet, coordinates) =>
    let x1 := coordinates.getD 0 0
    let y1 := coordinates.getD 1 0
    let x2 := coordinates.getD 2 0
    .ok ((List.range (x2 + 1 - x1).toNat).map fun i => f.cells dataSheet (x1 + i) y1)

/-- Modelled from the spec: the `inStrSlice` helper is code of this
repository outside the source slice; per the spec (§4.3) membership is
decided by exact name match (first match wins), with a case-insensitive
variant selected by the flag.  Returns the first matching index or `-1`. -/
def inStrSliceAux (idx : Int) (a : List String) (x : String) (caseSensitive : Bool) : Int :=
  match a with
  | [] => -1
  | n :: rest =>
    if (!caseSensitive && eqFold x n) || x == n then idx
    else inStrSliceAux (idx + 1) rest x caseSensitive

/-- `inStrSlice` — see `inStrSliceAux`; the pipeline always passes
`caseSensitive = true`. -/
def inStrSlice (a : List String) (x : String) (caseSensitive : Bool) : Int :=
  inStrSliceAux 0 a x caseSensitive

/-- The loop of `getPivotFieldsIndex` (`pivotTable.go` lines 635–639):
look every declared field up in the header order; keep the position of a
match, silently skip a mismatch. -/
def getPivotFieldsIndexLoop (orders : List String) (fields : List PivotTableField) : List Int :=
  match fields with
  | [] => []
  | field :: rest =>
    let pos := inStrSlice orders field.Data true
    if pos ≠ -1 then pos :: getPivotFieldsIndexLoop orders rest
    else getPivotFieldsIndexLoop orders rest

/-- `getPivotFieldsIndex` (`pivotTable.go` lines 629–641). -/
def getPivotFieldsIndex (f : File) (fields : List PivotTableField) (opts : PivotTableOption) :
    Except XErr (List Int) :=
  match getPivotFieldsOrder f opts with
  | .error e => .error e
  | .ok orders => .ok (getPivotFieldsIndexLoop orders fields)

/-- Specification-side first-match index: position of the first element of
`order` equal to `x`. -/
def firstMatchIdx (order : List String) (x : String) : Option Nat :=
  match order with
  | [] => none
  | o :: rest => if o = x then some 0 else (firstMatchIdx rest x).map (· + 1)

/-- `addPivotFields` (`pivotTable.go` lines 524–599): the ordered
pivot-field list, one entry per header-row field name. -/
def addPivotFields (f : File) (opts : PivotTableOption) : Except XErr (List xlsxPivotField) :=
  match getPivotFieldsOrder f opts with
  | .error e => .error e
  | .ok order => .ok (order.map (buildPivotField opts))

/-- `addPivotRowFields` (`pivotTable.go` lines 393–413): the row-axis
section, `none` when no row index survives (the Go code then leaves the
nil pointer in place).  The second component is the error the caller
ignores. -/
def addPivotRowFields (f : File) (opts : PivotTableOption) :
    Option xlsxRowFields × Option XErr :=
  match getPivotFieldsIndex f opts.Rows opts with
  | .error e => (none, some e)
  | .ok rowFieldsIndex =>
    let fields := rowFieldsIndex.map fun fieldIdx => ({ X := fieldIdx } : xlsxField)
    if fields.isEmpty then (none, none)
    else (some { Count := fields.length, Field := fields }, none)

/-- `addPivotPageFields` (`pivotTable.go` lines 417–439): the filter-axis
(page) section; entry `i` of the surviving index list is paired with entry
`i` of the truncated Filter display-name list. -/
def addPivotPageFields (f : File) (opts : PivotTableOption) :
    Option xlsxPageFields × Option XErr :=
  match getPivotFieldsIndex f opts.Filter opts with
  | .error e => (none, some e)
  | .ok pageFieldsIndex =>
    let pageFieldsName := getPivotTableFieldsName opts.Filter
    let pfs := pageFieldsIndex.enum.map fun p =>
      ({ Name := pageFieldsName.getD p.1 "", Fld := p.2 } : xlsxPageField)
    if pfs.isEmpty then (none, none)
    else (some { Count := pfs.length, PageField := pfs }, none)

/-- `addPivotDataFields` (`pivotTable.go` lines 443–467): the data-axis
section. -/
def addPivotDataFields (f : File) (opts : PivotTableOption) :
    Option xlsxDataFields × Option XErr :=
  match getPivotFieldsIndex f opts.Data opts with
  | .error e => (none, some e)
  | .ok dataFieldsIndex =>
    let dataFieldsSubtotals := getPivotTableFieldsSubtotal opts.Data
    let dataFieldsName := getPivotTableFieldsName opts.Data
    let dfs := dataFieldsIndex.enum.map fun p =>
      ({ Name := dataFieldsName.getD p.1 ""
         Fld := p.2
         Subtotal := dataFieldsSubtotals.getD p.1 "" } : xlsxDataField)
    if dfs.isEmpty then (none, none)
    else (some { Count := dfs.length, DataField := dfs }, none)

/-- `addPivotColFields` (`pivotTable.go` lines 483–520): the column-axis
section.  No explicit columns: nothing at all with at most one data field,
otherwise exactly the `-2` sentinel.  Explicit columns: their surviving
indices, with the sentinel appended when there is more than one data
field.  On an index-lookup error the Go code has already installed the
empty section before returning the error the caller ignores. -/
def addPivotColFields (f : File) (opts : PivotTableOption) :
    Option xlsxColFields × Option XErr :=
  if opts.Columns.length = 0 then
    if opts.Data.length ≤ 1 then (none, none)
    else (some { Count := 1, Field := [{ X := -2 }] }, none)
  else
    match getPivotFieldsIndex f opts.Columns opts with
    | .error e => (some { Count := 0, Field := [] }, some e)
    | .ok colFieldsIndex =>
      let fields := colFieldsIndex.map fun fieldIdx => ({ X := fieldIdx } : xlsxField)
      let fields := if opts.Data.length > 1 then fields ++ [({ X := -2 } : xlsxField)] else fields
      (some { Count := fields.length, Field := fields }, none)

/-- `addPivotCache` (`pivotTable.go` lines 252–310): re-validate the data
range, derive the header order (its error is discarded by the Go code, in
which case the order is empty), build the cache definition and persist it
under `pivotCacheXML`. -/
def addPivotCache (f : File) (pivotCacheXML : String) (opts : PivotTableOption) :
    Except XErr File :=
  let d := f.definedNameRefTo opts.DataRange opts.pivotTableSheetName
  let dataRange := if d = "" then opts.DataRange else d
  match adjustRange dataRange with
  | .error e => .error (.parsingError "DataRange" e)
  | .ok (dataSheet, coordinates) =>
    let order := match getPivotFieldsOrder f opts with | .ok o => o | .error _ => []
    let hCell := coordinatesToCellName (coordinates.getD 0 0) (coordinates.getD 1 0)
    let vCell := coordinatesToCellName (coordinates.getD 2 0) (coordinates.getD 3 0)
    let worksheetSource : xlsxWorksheetSource :=
      if d = "" then { Ref := hCell ++ ":" ++ vCell, Sheet := dataSheet }
      else { Name := opts.DataRange }
    let cacheFieldList := order.map (buildCacheField opts)
    let pc : xlsxPivotCacheDefinition :=
      { SaveData := false
        RefreshOnLoad := true
        CreatedVersion := pivotTableVersion
        RefreshedVersion := pivotTableVersion
        MinRefreshableVersion := pivotTableVersion
        CacheSource := { SourceType := "worksheet", WorksheetSource := worksheetSource }
        CacheFields := { Count := cacheFieldList.length, CacheField := cacheFieldList } }
    .ok (saveFileList f pivotCacheXML (.cacheDef pc))

/-- `addPivotTable` (`pivotTable.go` lines 314–389): re-validate the
placement range, assemble the table definition (field list, static item
skeletons, style block, the four axis sections — whose individual errors
the Go code ignores) and persist it under `pivotTableXML`. -/
def addPivotTable (f : File) (cacheID : Int) (pivotTableID : Nat) (pivotTableXML : String)
    (opts : PivotTableOption) : Except XErr File :=
  match adjustRange opts.PivotTableRange with
  | .error e => .error (.parsingError "PivotTableRange" e)
  | .ok (_, coordinates) =>
    let hCell := coordinatesToCellName (coordinates.getD 0 0) (coordinates.getD 1 0)
    let vCell := coordinatesToCellName (coordinates.getD 2 0) (coordinates.getD 3 0)
    let pivotTableStyle :=
      if opts.PivotTableStyleName = "" then "PivotStyleLight16" else opts.PivotTableStyleName
    let pivotFieldList := match addPivotFields f opts with | .ok l => l | .error _ => []
    let pt : xlsxPivotTableDefinition :=
      { Name := "Pivot Table" ++ toString pivotTableID
        CacheID := cacheID
        RowGrandTotals := opts.RowGrandTotals
        ColGrandTotals := opts.ColGrandTotals
        UpdatedVersion := pivotTableVersion
        MinRefreshableVersion := pivotTableVersion
        ShowDrill := opts.ShowDrill
        UseAutoFormatting := opts.UseAutoFormatting
        PageOverThenDown := opts.PageOverThenDown
        MergeItem := opts.MergeItem
        CreatedVersion := pivotTableVersion
        CompactData := opts.CompactData
        ShowError := opts.ShowError
        DataCaption := "Values"
        Location :=
          { Ref := hCell ++ ":" ++ vCell
            FirstDataCol := 1, FirstDataRow := 1, FirstHeaderRow := 1 }
        PivotFields := { Count := pivotFieldList.length, PivotField := pivotFieldList }
        RowItems := { Count := 1, I := [{ X := [{}, {}] }] }
        ColItems := { Count := 1, I := [{ X := [] }] }
        PivotTableStyleInfo :=
          { Name := pivotTableStyle
            ShowRowHeaders := opts.ShowRowHeaders
            ShowColHeaders := opts.ShowColHeaders
            ShowRowStripes := opts.ShowRowStripes
            ShowColStripes := opts.ShowColStripes
            ShowLastColumn := opts.ShowLastColumn }
        RowFields := (addPivotRowFields f opts).1
        ColFields := (addPivotColFields f opts).1
        PageFields := (addPivotPageFields f opts).1
        DataFields := (addPivotDataFields f opts).1 }
    .ok (saveFileList f pivotTableXML (.tableDef pt))

/-- `parseFormatPivotTableSet` (`pivotTable.go` lines 170–196): the
validation stage — nil options, placement-range parsing, defined-name
resolution and data-range parsing, data-sheet existence and placement
sheet path.  Returns the placement-sheet path and the options with the
resolved placement-sheet name attached; reads the document, never writes
it. -/
def parseFormatPivotTableSet (f : File) (optsIn : Option PivotTableOption) :
    Except XErr (String × PivotTableOption) :=
  match optsIn with
  | none => .error .parameterRequired
  | some opts₀ =>
    match adjustRange opts₀.PivotTableRange with
    | .error e => .error (.parsingError "PivotTableRange" e)
    | .ok (pivotTableSheetName, _) =>
      let opts := { opts₀ with pivotTableSheetName := pivotTableSheetName }
      let d := f.definedNameRefTo opts.DataRange pivotTableSheetName
      let dataRange := if d = "" then opts.DataRange else d
      match adjustRange dataRange with
      | .error e => .error (.parsingError "DataRange" e)
      | .ok (dataSheetName, _) =>
        match workSheetReader f dataSheetName with
        | .error e => .error e
        | .ok _ =>
          match getSheetXMLPath f pivotTableSheetName with
          | none => .error (.sheetNotExist pivotTableSheetName)
          | some pivotTableSheetPath => .ok (pivotTableSheetPath, opts)

/-- `AddPivotTable` (`pivotTable.go` lines 131–166): the public pipeline.
Validation first; then (in source order) the cache part is persisted, the
workbook cache relationship and registry entry are added, the table→cache
relationship file is written, the table part is persisted, the sheet→table
relationship is added and the two content-type parts are registered.  The
returned `File` is the document after whatever steps ran. -/
def AddPivotTable (f : File) (optsIn : Option PivotTableOption) : Option XErr × File :=
  match parseFormatPivotTableSet f optsIn with
  | .error e => (some e, f)
  | .ok (pivotTableSheetPath, opts) =>
    let pivotTableID := countPivotTables f + 1
    let pivotCacheID := countPivotCache f + 1
    let sheetRelationshipsPivotTableXML :=
      "../pivotTables/pivotTable" ++ toString pivotTableID ++ ".xml"
    -- `strings.ReplaceAll(sheetRelationshipsPivotTableXML, "..", "xl")`:
    let pivotTableXML := "xl/pivotTables/pivotTable" ++ toString pivotTableID ++ ".xml"
    let pivotCacheXML := "xl/pivotCache/pivotCacheDefinition" ++ toString pivotCacheID ++ ".xml"
    match addPivotCache f pivotCacheXML opts with
    | .error e => (some e, f)
    | .ok f₁ =>
      let rc := addRels f₁ (getWorkbookRelsPath f₁) SourceRelationshipPivotCache
        ("/xl/pivotCache/pivotCacheDefinition" ++ toString pivotCacheID ++ ".xml")
      let wc := addWorkbookPivotCache rc.1 rc.2
      let pivotCacheRels := "xl/pivotTables/_rels/pivotTable" ++ toString pivotTableID ++ ".xml.rels"
      let r2 := addRels wc.1 pivotCacheRels SourceRelationshipPivotCache
        ("../pivotCache/pivotCacheDefinition" ++ toString pivotCacheID ++ ".xml")
      match addPivotTable r2.1 wc.2 pivotTableID pivotTableXML opts with
      | .error e => (some e, r2.1)
      | .ok f₂ =>
        let pivotTableSheetRels :=
          "xl/worksheets/_rels/" ++ goTrimPre pivotTableSheetPath "xl/worksheets/" ++ ".rels"
        let r3 := addRels f₂ pivotTableSheetRels SourceRelationshipPivotTable
          sheetRelationshipsPivotTableXML
        let f₃ := addContentTypePart r3.1 pivotTableID "pivotTable"
        let f₄ := addContentTypePart f₃ pivotCacheID "pivotCache"
        (none, f₄)

end Excelize

namespace Excelize

def demoFile : File :=
  { sheets := [("Sheet1", "xl/worksheets/sheet1.xml")]
    cells := fun _ col row =>
      if row = 1 then ["Month", "Year", "Type", "Sales", "Region"].getD (col - 1).toNat "" else "" }

def demoOpts : PivotTableOption :=
  { DataRange := "Sheet1!$A$1:$E$31"
    PivotTableRange := "Sheet1!$G$2:$M$34"
    Rows := [{ Data := "Month" }]
    Filter := [{ Data := "Region" }]
    Columns := [{ Data := "Type" }]
    Data := [{ Data := "Sales", Name := "Summarize", Subtotal := "Sum" }] }

lemma string_length_lt_one_iff (s : String) : s.length < 1 ↔ s = "" := by
  cases s with
  | mk data =>
    cases data with
    | nil => simp [String.length]
    | cons c cs => simp [String.length, String.ext_iff]

lemma adjustCoordinates_spec (x1 y1 x2 y2 : Int) :
    adjustCoordinates [x1, y1, x2, y2] =
      if x1 = x2 ∧ y1 = y2 then .error .parameterInvalid
      else .ok [min x1 x2, min y1 y2, max x1 x2, max y1 y2] := by
  simp only [adjustCoordinates]
  split_ifs with h
  · rfl
  all_goals
    dsimp only
    simp only [Except.ok.injEq, List.cons.injEq, and_true]
    omega

/-- Claim C5: range normalization corrects reversed corners by swapping
the two column coordinates and the two row coordinates independently, so
normalizing a range with corners swapped on either axis (or both) yields
the same canonical box, with ordered coordinates, as normalizing the
unswapped range. -/
theorem claim_C5 (x1 y1 x2 y2 : Int) :
    adjustCoordinates [x2, y1, x1, y2] = adjustCoordinates [x1, y1, x2, y2] ∧
    adjustCoordinates [x1, y2, x2, y1] = adjustCoordinates [x1, y1, x2, y2] ∧
    adjustCoordinates [x2, y2, x1, y1] = adjustCoordinates [x1, y1, x2, y2] ∧
    (¬(x1 = x2 ∧ y1 = y2) →
      adjustCoordinates [x1, y1, x2, y2] =
        .ok [min x1 x2, min y1 y2, max x1 x2, max y1 y2]) := by
  refine ⟨?_, ?_, ?_, fun h => by rw [adjustCoordinates_spec, if_neg h]⟩ <;>
  · rw [adjustCoordinates_spec, adjustCoordinates_spec]
    split_ifs <;> first
      | rfl
      | (exfalso; omega)
      | (simp only [Except.ok.injEq, List.cons.injEq, eq_self_iff_true, and_true,
          true_and]
         omega)

/-- Witness for C5 at a concrete swapped range box. -/
theorem claim_C5_witness :
    adjustCoordinates [5, 31, 1, 1] = adjustCoordinates [1, 1, 5, 31] ∧
    adjustCoordinates [1, 1, 5, 31] = .ok [1, 1, 5, 31] := by
  refine ⟨(claim_C5 1 1 5 31).1, ?_⟩
  exact (claim_C5 1 1 5 31).2.2.2 (by decide)

lemma adjustRange_of_ne_empty (s : String) (h : s ≠ "") :
    adjustRange s = adjustRangeSplit (goSplitBang s) := by
  rw [adjustRange, if_neg]
  rw [string_length_lt_one_iff]
  exact h

lemma adjustRangeSplit_of_length_ne_two (l : List String) (h : l.length ≠ 2) :
    adjustRangeSplit l = .error .parameterInvalid := by
  rcases l with _ | ⟨a, _ | ⟨b, _ | ⟨c, t⟩⟩⟩ <;> simp_all [adjustRangeSplit]

/-- Claim C6: range normalization fails with `MissingParameter` on the
empty string; with `InvalidParameter` when the `!` separator is missing or
duplicated (segment count not 2), when the address portion cannot be
parsed into two cell coordinates, or when the two corners coincide; and it
succeeds on every other well-formed two-cell range. -/
theorem claim_C6 (s : String) :
    (s = "" → adjustRange s = .error .parameterRequired) ∧
    (s ≠ "" → (goSplitBang s).length ≠ 2 → adjustRange s = .error .parameterInvalid) ∧
    (∀ s0 s1, s ≠ "" → goSplitBang s = [s0, s1] →
      areaRefToCoordinates (stripDollar s1) = .error .parameterInvalid →
      adjustRange s = .error .parameterInvalid) ∧
    (∀ s0 s1 x y, s ≠ "" → goSplitBang s = [s0, s1] →
      areaRefToCoordinates (stripDollar s1) = .ok [x, y, x, y] →
      adjustRange s = .error .parameterInvalid) ∧
    (∀ s0 s1 x1 y1 x2 y2, s ≠ "" → goSplitBang s = [s0, s1] →
      areaRefToCoordinates (stripDollar s1) = .ok [x1, y1, x2, y2] →
      ¬(x1 = x2 ∧ y1 = y2) →
      adjustRange s = .ok (s0, [min x1 x2, min y1 y2, max x1 x2, max y1 y2])) := by
  refine ⟨fun h => by rw [h]; rfl, ?_, ?_, ?_, ?_⟩
  · intro hne hlen
    rw [adjustRange_of_ne_empty s hne]
    exact adjustRangeSplit_of_length_ne_two _ hlen
  · intro s0 s1 hne hsplit harea
    rw [adjustRange_of_ne_empty s hne, hsplit]
    simp [adjustRangeSplit, harea]
  · intro s0 s1 x y hne hsplit harea
    rw [adjustRange_of_ne_empty s hne, hsplit]
    simp [adjustRangeSplit, harea, adjustCoordinates_spec, Except.map]
  · intro s0 s1 x1 y1 x2 y2 hne hsplit harea hnd
    rw [adjustRange_of_ne_empty s hne, hsplit]
    simp [adjustRangeSplit, harea, adjustCoordinates_spec, if_neg hnd, Except.map]

/-- Witness for C6: each failure mode and the success mode at a concrete
range string. -/
theorem claim_C6_witness :
    adjustRange "" = .error .parameterRequired ∧
    adjustRange "Sheet1$A$1:$E$31" = .error .parameterInvalid ∧
    adjustRange "Sheet1!garbage" = .error .parameterInvalid ∧
    adjustRange "Sheet1!$C$1:$C$1" = .error .parameterInvalid ∧
    adjustRange "Sheet1!$E$31:$A$1" = .ok ("Sheet1", [1, 1, 5, 31]) := by
  refine ⟨(claim_C6 "").1 rfl, ?_, ?_, ?_, ?_⟩
  · exact (claim_C6 _).2.1 (by decide) (by decide)
  · exact (claim_C6 _).2.2.1 "Sheet1" "garbage" (by decide) rfl rfl
  · exact (claim_C6 _).2.2.2.1 "Sheet1" "$C$1:$C$1" 3 1 (by decide) rfl rfl
  · exact (claim_C6 _).2.2.2.2 "Sheet1" "$E$31:$A$1" 5 31 1 1 (by decide) rfl rfl (by decide)

lemma inEnums_of_fold_match (l : List String) (s : String)
    (h : ∃ e ∈ l, eqFold e s = true) :
    inEnums l s ∈ l ∧ eqFold (inEnums l s) s = true := by
  induction l with
  | nil => simp at h
  | cons e rest ih =>
    by_cases he : eqFold e s = true
    · simp [inEnums, he]
    · have h' : ∃ x ∈ rest, eqFold x s = true := by
        rcases h with ⟨x, hx, hfold⟩
        rcases List.mem_cons.mp hx with hxe | hxr
        · exact absurd (hxe ▸ hfold) he
        · exact ⟨x, hxr, hfold⟩
      have := ih h'
      simp only [inEnums, he, if_false, Bool.false_eq_true]
      exact ⟨List.mem_cons_of_mem _ this.1, this.2⟩

lemma inEnums_of_no_fold_match (l : List String) (s : String)
    (h : ∀ e ∈ l, eqFold e s = false) :
    inEnums l s = "sum" := by
  induction l with
  | nil => rfl
  | cons e rest ih =>
    have he := h e (List.mem_cons_self e rest)
    simp only [inEnums, he, Bool.false_eq_true, if_false]
    exact ih fun x hx => h x (List.mem_cons_of_mem _ hx)

/-- Claim C7: every data-field aggregation tag is normalized by
case-insensitive comparison against the fixed enumeration, yielding the
matching member's canonical spelling, and any tag matching no member
(including the empty string) normalizes to `"sum"`. -/
theorem claim_C7 (fields : List PivotTableField) (s : String) :
    getPivotTableFieldsSubtotal fields =
      fields.map (fun fld => inEnums subtotalEnums fld.Subtotal) ∧
    ((∃ e ∈ subtotalEnums, eqFold e s = true) →
      inEnums subtotalEnums s ∈ subtotalEnums ∧ eqFold (inEnums subtotalEnums s) s = true) ∧
    ((∀ e ∈ subtotalEnums, eqFold e s = false) → inEnums subtotalEnums s = "sum") :=
  ⟨rfl, inEnums_of_fold_match subtotalEnums s, inEnums_of_no_fold_match subtotalEnums s⟩

/-- Witness for C7: `"AVERAGE"` matches case-insensitively and normalizes
into the enumeration; `"bogus"` and `""` normalize to `"sum"`. -/
theorem claim_C7_witness :
    (inEnums subtotalEnums "AVERAGE" ∈ subtotalEnums ∧
      eqFold (inEnums subtotalEnums "AVERAGE") "AVERAGE" = true) ∧
    inEnums subtotalEnums "bogus" = "sum" ∧
    inEnums subtotalEnums "" = "sum" ∧
    getPivotTableFieldsSubtotal [{ Subtotal := "AVERAGE" }, { Subtotal := "bogus" }] =
      ["average", "sum"] := by
  refine ⟨(claim_C7 [] "AVERAGE").2.1 ⟨"average", by decide, by decide⟩,
    (claim_C7 [] "bogus").2.2 (by decide), (claim_C7 [] "").2.2 (by decide), rfl⟩

/-- Claim C1: for every header-row field name the emitted `PivotField`
classifies the name under exactly one axis with precedence Rows, then
Filter, then Columns, then Data; the data-field flag equals membership in
the Data list regardless of which axis won; and a name in no list yields
the empty `PivotField` (no axis, no items). -/
theorem claim_C1 (opts : PivotTableOption) (name : String) :
    ((buildPivotField opts name).DataField = (inPivotTableField opts.Data name != -1)) ∧
    (inPivotTableField opts.Rows name ≠ -1 →
      (buildPivotField opts name).Axis = "axisRow") ∧
    (inPivotTableField opts.Rows name = -1 → inPivotTableField opts.Filter name ≠ -1 →
      (buildPivotField opts name).Axis = "axisPage") ∧
    (inPivotTableField opts.Rows name = -1 → inPivotTableField opts.Filter name = -1 →
      inPivotTableField opts.Columns name ≠ -1 →
      (buildPivotField opts name).Axis = "axisCol") ∧
    (inPivotTableField opts.Rows name = -1 → inPivotTableField opts.Filter name = -1 →
      inPivotTableField opts.Columns name = -1 → inPivotTableField opts.Data name ≠ -1 →
      buildPivotField opts name = { DataField := true }) ∧
    (inPivotTableField opts.Rows name = -1 → inPivotTableField opts.Filter name = -1 →
      inPivotTableField opts.Columns name = -1 → inPivotTableField opts.Data name = -1 →
      buildPivotField opts name = {}) := by
  refine ⟨?_, ?_, ?_, ?_, ?_, ?_⟩
  · simp only [buildPivotField]
    split_ifs <;> simp_all [bne_iff_ne]
  · intro h1
    simp [buildPivotField, h1]
  · intro h1 h2
    simp [buildPivotField, h1, h2]
  · intro h1 h2 h3
    simp [buildPivotField, h1, h2, h3]
  · intro h1 h2 h3 h4
    simp [buildPivotField, h1, h2, h3, h4]
  · intro h1 h2 h3 h4
    simp [buildPivotField, h1, h2, h3, h4]

/-- Witness for C1: a name declared in Rows, Filter and Data at once is
classified under Rows with the data-field flag still set; a name in no
list yields the empty `PivotField`. -/
theorem claim_C1_witness :
    (buildPivotField
      { Rows := [{ Data := "A" }], Filter := [{ Data := "A" }], Data := [{ Data := "A" }] }
      "A").Axis = "axisRow" ∧
    (buildPivotField
      { Rows := [{ Data := "A" }], Filter := [{ Data := "A" }], Data := [{ Data := "A" }] }
      "A").DataField = true ∧
    buildPivotField {} "Z" = {} := by
  refine ⟨claim_C1 _ "A" |>.2.1 (by decide), by decide,
    claim_C1 {} "Z" |>.2.2.2.2.2 rfl rfl rfl rfl⟩

lemma getPivotTableFieldName_of_no_match (x : String) (a : List PivotTableField) :
    ∀ idx : Int, 0 ≤ idx → inPivotTableFieldAux idx a x = -1 →
      getPivotTableFieldName x a = "" := by
  induction a with
  | nil => intro idx _ _; rfl
  | cons fld rest ih =>
    intro idx hidx h
    simp only [inPivotTableFieldAux] at h
    by_cases hd : x = fld.Data
    · rw [if_pos hd] at h; omega
    · rw [if_neg hd] at h
      rw [getPivotTableFieldName, if_neg fun hh => hd hh.symm]
      exact ih (idx + 1) (by omega) h

/-- Claim C9: a field classified under the Filter axis has its
`PivotField` name resolved by looking the field up in the Columns list,
not the Filter list; when the name is absent from the Columns list the
emitted name is the empty string, whatever display name the Filter
declaration carries. -/
theorem claim_C9 (opts : PivotTableOption) (name : String)
    (hrow : inPivotTableField opts.Rows name = -1)
    (hfil : inPivotTableField opts.Filter name ≠ -1) :
    (buildPivotField opts name).Name = getPivotTableFieldName name opts.Columns ∧
    (inPivotTableField opts.Columns name = -1 → (buildPivotField opts name).Name = "") := by
  have hn : (buildPivotField opts name).Name = getPivotTableFieldName name opts.Columns := by
    simp [buildPivotField, hrow, hfil]
  exact ⟨hn, fun hcol =>
    hn.trans (getPivotTableFieldName_of_no_match name opts.Columns 0 le_rfl hcol)⟩

/-- Witness for C9: `Region` is declared only under Filter with display
name `"R"`, yet the emitted `PivotField` name is empty. -/
theorem claim_C9_witness :
    (buildPivotField { Filter := [{ Data := "Region", Name := "R" }] } "Region").Name = "" := by
  exact (claim_C9 { Filter := [{ Data := "Region", Name := "R" }] } "Region"
    rfl (by decide)).2 rfl

/-- Claim C3 as amended: a `CacheField`'s shared-items count is 1 (with
the placeholder empty-string item) exactly when the field appears in the
Rows list with that entry's `DefaultSubtotal` false, or in the Columns
list with that entry's `DefaultSubtotal` false — list membership with the
per-list resolved option, regardless of which axis wins the classifier's
precedence; every other field gets count 0 and no item; the cache entry
keeps the header name. -/
theorem claim_C3 (opts : PivotTableOption) (name : String) :
    ((buildCacheField opts name).SharedItems.Count = 1 ↔
      ((getPivotTableFieldOptions name opts.Rows).2 = true ∧
        (getPivotTableFieldOptions name opts.Rows).1.DefaultSubtotal = false) ∨
      ((getPivotTableFieldOptions name opts.Columns).2 = true ∧
        (getPivotTableFieldOptions name opts.Columns).1.DefaultSubtotal = false)) ∧
    ((buildCacheField opts name).SharedItems.Count = 1 →
      (buildCacheField opts name).SharedItems.S = some { V := "" }) ∧
    ((buildCacheField opts name).SharedItems.Count ≠ 1 →
      (buildCacheField opts name).SharedItems = { Count := 0, S := none }) ∧
    (buildCacheField opts name).Name = name := by
  simp only [buildCacheField]
  split_ifs with h
  · simp only [Bool.or_eq_true, Bool.and_eq_true, Bool.not_eq_true'] at h
    simp [h]
  · simp only [Bool.or_eq_true, Bool.and_eq_true, Bool.not_eq_true'] at h
    push_neg at h
    constructor
    · simp only [show (0 : Nat) ≠ 1 by decide, false_iff]
      rintro (⟨ha, hb⟩ | ⟨ha, hb⟩)
      · exact absurd hb (by simpa [ha] using h.1)
      · exact absurd hb (by simpa [ha] using h.2)
    · simp

/-- Witness for C3: `DefaultSubtotal = false` under Rows gives count 1;
`DefaultSubtotal = true` under Rows gives the default marker. -/
theorem claim_C3_witness :
    (buildCacheField { Rows := [{ Data := "M" }] } "M").SharedItems.Count = 1 ∧
    (buildCacheField { Rows := [{ Data := "M", DefaultSubtotal := true }] } "M").SharedItems =
      { Count := 0, S := none } := by
  refine ⟨(claim_C3 { Rows := [{ Data := "M" }] } "M").1.mpr (.inl ⟨by decide, by decide⟩),
    (claim_C3 { Rows := [{ Data := "M", DefaultSubtotal := true }] } "M").2.2.1 (by decide)⟩

/-- Counterexample for C3 as stated: the field `F` is declared in Filter
and in Columns (the Columns entry with `DefaultSubtotal` false), so the
classifier's precedence puts it under the Filter axis — it is not
classified under Rows or Columns, and the claim's precedence-based rule
(`specSharedItemsCount`) gives count 0 — yet the emitted cache field has
shared-items count 1. -/
theorem claim_C3_counterexample :
    (buildPivotField { Filter := [{ Data := "F" }], Columns := [{ Data := "F" }] } "F").Axis =
      "axisPage" ∧
    specSharedItemsCount { Filter := [{ Data := "F" }], Columns := [{ Data := "F" }] } "F" = 0 ∧
    (buildCacheField { Filter := [{ Data := "F" }], Columns := [{ Data := "F" }] }
      "F").SharedItems.Count = 1 := by
  exact ⟨rfl, rfl, rfl⟩

/-- Claim C2: with no explicit column fields and more than one data field
the column-field list is exactly the `-2` sentinel; with explicit column
fields and more than one data field the sentinel is appended after them;
with no explicit columns and at most one data field no column-field
section is emitted. -/
theorem claim_C2 (f : File) (opts : PivotTableOption) :
    (opts.Columns = [] → opts.Data.length ≤ 1 → addPivotColFields f opts = (none, none)) ∧
    (opts.Columns = [] → 1 < opts.Data.length →
      addPivotColFields f opts = (some { Count := 1, Field := [{ X := -2 }] }, none)) ∧
    (∀ idxs, opts.Columns ≠ [] → 1 < opts.Data.length →
      getPivotFieldsIndex f opts.Columns opts = .ok idxs →
      addPivotColFields f opts =
        (some { Count := idxs.length + 1
                Field := (idxs.map fun i => ({ X := i } : xlsxField)) ++ [{ X := -2 }] },
         none)) := by
  refine ⟨?_, ?_, ?_⟩
  · intro hc hd
    simp [addPivotColFields, hc, hd]
  · intro hc hd
    have hd' : ¬(opts.Data.length ≤ 1) := by omega
    simp [addPivotColFields, hc, hd']
  · intro idxs hc hd hidx
    have hlen : ¬(opts.Columns.length = 0) := by
      simpa [List.length_eq_zero] using hc
    simp [addPivotColFields, hlen, hidx, hd, List.length_append, List.length_map]

/-- Witness for C2: the three synthesis cases at concrete inputs. -/
theorem claim_C2_witness :
    addPivotColFields {} { Data := [{ Data := "S" }] } = (none, none) ∧
    addPivotColFields {} { Data := [{ Data := "S" }, { Data := "T" }] } =
      (some { Count := 1, Field := [{ X := -2 }] }, none) ∧
    addPivotColFields ({ cells := fun _ col _ => if col = 1 then "A" else "B" } : File)
      { DataRange := "S!A1:B2", Columns := [{ Data := "A" }],
        Data := [{ Data := "S" }, { Data := "T" }] } =
      (some { Count := 2, Field := [{ X := 0 }, { X := -2 }] }, none) := by
  refine ⟨(claim_C2 {} _).1 rfl (by decide), (claim_C2 {} _).2.1 rfl (by decide),
    (claim_C2 _ _).2.2 [0] (by decide) (by decide) rfl⟩

lemma inStrSliceAux_true_eq (x : String) (a : List String) : ∀ idx : Int,
    inStrSliceAux idx a x true =
      (match firstMatchIdx a x with | none => -1 | some i => idx + i) := by
  induction a with
  | nil => intro idx; rfl
  | cons n rest ih =>
    intro idx
    by_cases h : n = x
    · simp [inStrSliceAux, firstMatchIdx, h]
    · have hb : (x == n) = false := by
        simp only [beq_eq_false_iff_ne, ne_eq]
        exact fun hh => h hh.symm
      simp only [inStrSliceAux, Bool.not_true, Bool.false_and, Bool.false_or, hb,
        Bool.false_eq_true, if_false, firstMatchIdx, h, ih (idx + 1)]
      cases hfm : firstMatchIdx rest x with
      | none => rfl
      | some i =>
        simp only [hfm, Option.map_some']
        push_cast
        ring

lemma getPivotFieldsIndexLoop_eq (orders : List String) (fields : List PivotTableField) :
    getPivotFieldsIndexLoop orders fields =
      fields.filterMap fun fld => (firstMatchIdx orders fld.Data).map fun n => (n : Int) := by
  induction fields with
  | nil => rfl
  | cons field rest ih =>
    simp only [getPivotFieldsIndexLoop, inStrSlice, inStrSliceAux_true_eq, List.filterMap_cons]
    cases hfm : firstMatchIdx orders field.Data with
    | none => simp [hfm, ih]
    | some i =>
      have h0 : (0 : Int) + i = i := by omega
      have h1 : ((i : Int)) ≠ -1 := by omega
      simp [hfm, ih, h0, h1]

/-- Claim C10: an axis-list entry whose source field name matches no
header-row field name is silently omitted from the derived index list —
no error is returned — and the list keeps one position per matching entry
in declaration order. -/
theorem claim_C10 (f : File) (opts : PivotTableOption) (fields : List PivotTableField)
    (order : List String) (h : getPivotFieldsOrder f opts = .ok order) :
    getPivotFieldsIndex f fields opts =
      .ok (fields.filterMap fun fld => (firstMatchIdx order fld.Data).map fun n => (n : Int)) := by
  simp [getPivotFieldsIndex, h, getPivotFieldsIndexLoop_eq]

/-- Witness for C10: a Filter-style list with one bogus entry and one
matching entry yields exactly the matching entry's position. -/
theorem claim_C10_witness :
    getPivotFieldsIndex ({ cells := fun _ col _ => if col = 1 then "A" else "B" } : File)
      [{ Data := "bogus" }, { Data := "B" }] { DataRange := "S!A1:B2" } = .ok [1] := by
  exact claim_C10 _ _ _ ["A", "B"] rfl

lemma foldl_count_eq_countP (p : String → Bool) (l : List String) :
    ∀ acc : Nat,
      l.foldl (fun count k => if p k then count + 1 else count) acc = acc + l.countP p := by
  induction l with
  | nil => intro acc; simp
  | cons x t ih =>
    intro acc
    rw [List.foldl_cons, ih]
    simp only [List.countP_cons]
    by_cases h : p x <;> simp [h] <;> omega

lemma foldl_pick_eq_foldl_max (l : List (Int × String)) :
    ∀ acc : Int,
      l.foldl (fun acc pc => if pc.1 > acc then pc.1 else acc) acc =
        (l.map Prod.fst).foldl max acc := by
  induction l with
  | nil => intro acc; rfl
  | cons x t ih =>
    intro acc
    rw [List.foldl_cons, ih, List.map_cons, List.foldl_cons]
    congr 1
    split_ifs <;> omega

/-- Claim C4 (amended): the pivot-table and pivot-cache sequence numbers
are count-based — `AddPivotTable` uses `countPivotTables f + 1` and
`countPivotCache f + 1`, and each count equals the number of existing
package parts whose names contain the respective prefix — while the
workbook pivot-cache registry ID is max-based with a floor of one:
the allocated ID is `max (1, existing registry IDs) + 1`. -/
theorem claim_C4 (f : File) (rid : Nat) :
    countPivotTables f = f.pkg.countP (fun n => hasSub n "xl/pivotTables/pivotTable") ∧
    countPivotCache f = f.pkg.countP (fun n => hasSub n "xl/pivotCache/pivotCacheDefinition") ∧
    (addWorkbookPivotCache f rid).2 = (f.pivotCaches.map Prod.fst).foldl max 1 + 1 := by
  refine ⟨?_, ?_, ?_⟩
  · rw [countPivotTables, foldl_count_eq_countP]
    simp
  · rw [countPivotCache, foldl_count_eq_countP]
    simp
  · simp only [addWorkbookPivotCache, foldl_pick_eq_foldl_max]

/-- Counterexample for C4 as stated: in a document whose registry holds
the single cache ID 0 — so the maximum of the existing registry IDs is
0 — the allocated registry ID is 2, not maximum-plus-one. -/
theorem claim_C4_counterexample :
    ((({ pivotCaches := [(0, "rId1")] } : File).pivotCaches.map Prod.fst).foldl max 0 = 0) ∧
    (addWorkbookPivotCache ({ pivotCaches := [(0, "rId1")] } : File) 1).2 = 2 ∧
    (2 : Int) ≠ 0 + 1 := by
  refine ⟨rfl, rfl, by decide⟩

/-- Claim C8: `AddPivotTable` runs its whole validation stage
(`parseFormatPivotTableSet`) before building or persisting anything; when
validation fails the returned document is the input document unchanged —
no part, relationship, registry entry or content type was added. -/
theorem claim_C8 (f : File) (optsIn : Option PivotTableOption) (e : XErr)
    (h : parseFormatPivotTableSet f optsIn = .error e) :
    AddPivotTable f optsIn = (some e, f) := by
  simp [AddPivotTable, h]

/-- Witness for C8: nil options fail validation and leave the empty
document untouched. -/
theorem claim_C8_witness :
    AddPivotTable ({} : File) none = (some .parameterRequired, ({} : File)) :=
  claim_C8 {} none .parameterRequired rfl

/-- Sanity check: the embedded pipeline succeeds on the documentation
example of `AddPivotTable` (header row Month, Year, Type, Sales, Region;
one row, filter, column and data field). -/
theorem sample_pipeline_succeeds : (AddPivotTable demoFile (some demoOpts)).1 = none := rfl

/-- Sanity check: on the documentation example the table definition holds
five pivot fields and exactly one row, column, page and data axis entry,
with the data field named `Summarize` and subtotal `sum`, and no
sentinel column field. -/
theorem sample_pipeline_sections :
    (match addPivotTable demoFile 2 1 "t" { demoOpts with pivotTableSheetName := "Sheet1" } with
     | .ok f => (match f.parts.lookup "t" with
                 | some (.tableDef pt) =>
                   (pt.PivotFields.Count, pt.RowFields, pt.ColFields, pt.PageFields, pt.DataFields)
                 | _ => (0, none, none, none, none))
     | .error _ => (0, none, none, none, none)) =
    (5, some { Count := 1, Field := [{ X := 0 }] },
        some { Count := 1, Field := [{ X := 2 }] },
        some { Count := 1, PageField := [{ Name := "", Fld := 4 }] },
        some { Count := 1, DataField := [{ Name := "Summarize", Fld := 3, Subtotal := "sum" }] }) :=
  rfl


end Excelize
